import Mathlib

/-!
Verification of the code-duplication analyzer
(`code_duplication_analyzer.py`): a shallow embedding of its data model
and functions, and theorems settling the specification's claims about it.

Python machine numbers are modelled as exact rationals (`ℚ`); similarity
scores are ratios of small natural numbers.  The Python `tokenize` lexer
and `ast` parser are external library services: a source file is modelled
by the data they deliver (its line list, its whole-file token stream, and
the function-definition nodes found by the AST walk), and the analyzer's
own processing of that data is embedded faithfully.
-/

/-- Lexical token categories of the Python `token` module that the
analyzer distinguishes.  `OP` stands for every category the analyzer
treats generically (operators, punctuation, keywords-as-names aside);
`ENCODING` is the stream-initial encoding marker `tokenize` emits. -/
inductive TokenType where
  | ENDMARKER
  | NAME
  | NUMBER
  | STRING
  | NEWLINE
  | INDENT
  | DEDENT
  | OP
  | COMMENT
  | NL
  | ENCODING
  deriving DecidableEq, Repr

/-- One lexical token: its category and its literal text
(the `type` and `string` fields of a `tokenize.TokenInfo`). -/
structure TokenInfo where
  type : TokenType
  string : String
  deriving DecidableEq, Repr

/-- CONFIG constant `MIN_TOKENS = 15`: ignore tiny methods. -/
def MIN_TOKENS : Nat := 15

/-- CONFIG constant `THRESHOLD = 0.75`: review threshold (0.75 is an
exact binary float, hence exactly `3/4`). -/
def THRESHOLD : ℚ := 3 / 4

/-- Class `MethodInfo`: one extracted function or method definition.
The sha256 `hash` field of the Python class is computed by the external
`hashlib` library and read by no analyzer code, so it is not modelled. -/
structure MethodInfo where
  name : String
  file : String
  start_line : Nat
  end_line : Nat
  code : String
  tokens : List TokenInfo
  deriving DecidableEq, Repr

/-- One function/method definition node of the AST walk
(`ast.FunctionDef` / `ast.AsyncFunctionDef`): its name and its 1-based
inclusive line range `lineno..end_lineno`. -/
structure DefNode where
  name : String
  lineno : Nat
  end_lineno : Nat
  deriving DecidableEq, Repr

/-- A source file as delivered by the external lexer and parser:
its path, its lines (`code.splitlines()`), its whole-file token stream
(`list(tokenize(f.readline))`), and the function/method definition nodes
of `ast.walk` in walk order (every nesting depth included). -/
structure SourceFile where
  path : String
  lines : List String
  tokens : List TokenInfo
  defs : List DefNode
  deriving DecidableEq, Repr

/-- Line-range slice `'\n'.join(code.splitlines()[start-1:end])`. -/
def sourceSlice (lines : List String) (start_line end_line : Nat) : String :=
  String.intercalate "\n" ((lines.drop (start_line - 1)).take (end_line - start_line + 1))

/-- Record built by the loop body of `extract_methods_from_file` for one
definition node: note the whole-file token stream `f.tokens` is attached
unsliced. -/
def mkMethodInfo (f : SourceFile) (node : DefNode) : MethodInfo :=
  { name := node.name
    file := f.path
    start_line := node.lineno
    end_line := node.end_lineno
    code := sourceSlice f.lines node.lineno node.end_lineno
    tokens := f.tokens }

/-- Python `str.startswith`: prefix test on the character data (the
built-in `String.startsWith` is equivalent but does not reduce
definitionally, which concrete evaluation needs). -/
def startswith (s pre : String) : Bool :=
  pre.data.isPrefixOf s.data

/-- Function `extract_methods_from_file`: walk the definition nodes,
skip `_`-prefixed names other than `__init__`, and build a `MethodInfo`
per remaining node. -/
def extract_methods_from_file (f : SourceFile) : List MethodInfo :=
  f.defs.filterMap fun node =>
    if startswith node.name "_" ∧ node.name ≠ "__init__" then
      none
    else
      some (mkMethodInfo f node)

/-- Function `normalize_tokens`: anonymize identifier/literal tokens to
the placeholder `"X"`, drop structural tokens, keep everything else
verbatim, preserving order. -/
def normalize_tokens (tokens : List TokenInfo) : List (TokenType × String) :=
  tokens.filterMap fun t =>
    if t.type = .NAME ∨ t.type = .NUMBER ∨ t.type = .STRING then
      some (t.type, "X")
    else if t.type = .INDENT ∨ t.type = .DEDENT ∨ t.type = .NEWLINE ∨
            t.type = .COMMENT ∨ t.type = .NL ∨ t.type = .ENDMARKER then
      none
    else
      some (t.type, t.string)

/-- Function `token_similarity`: 0 if either raw token stream is shorter
than `MIN_TOKENS`; otherwise the Jaccard index of the two canonical token
sets, with the empty-union case defined as 0. -/
def token_similarity (m1 m2 : MethodInfo) : ℚ :=
  if m1.tokens.length < MIN_TOKENS ∨ m2.tokens.length < MIN_TOKENS then
    0
  else
    let set1 := (normalize_tokens m1.tokens).toFinset
    let set2 := (normalize_tokens m2.tokens).toFinset
    let intersection := (set1 ∩ set2).card
    let union := (set1 ∪ set2).card
    if union > 0 then (intersection : ℚ) / (union : ℚ) else 0

/-- Scored similarity pair, the triple `(m1, m2, sim)`. -/
abbrev SimPair := MethodInfo × MethodInfo × ℚ

/-- Model of `itertools.combinations(xs, 2)`: every unordered pair of
distinct positions `i < j`, in lexicographic position order. -/
def combinations2 : List MethodInfo → List (MethodInfo × MethodInfo)
  | [] => []
  | x :: xs => xs.map (fun y => (x, y)) ++ combinations2 xs

/-- Pair-analysis loop of `analyze_project` (its lines after the file
scan): score every unordered pair of distinct methods, keep those with
`sim >= 0.3`, and sort descending by score.  Python's list sort is
stable, as is `List.mergeSort`, so sorting with `b.sim ≤ a.sim` models
`pairs.sort(key=score, reverse=True)` exactly. -/
def analyze_pairs (all_methods : List MethodInfo) : List SimPair :=
  let pairs := (combinations2 all_methods).filterMap fun p =>
    let sim := token_similarity p.1 p.2
    if 3 / 10 ≤ sim then some (p.1, p.2, sim) else none
  pairs.mergeSort fun a b => decide (b.2.2 ≤ a.2.2)

/-- Exclusion test of `analyze_project`: a path is skipped when it
contains `"venv"`, `"env"` or `".git"` as a substring. -/
def pathExcluded (p : String) : Bool :=
  (p.containsSubstr "venv") || (p.containsSubstr "env") || (p.containsSubstr ".git")

/-- Function `analyze_project`, with the external `Path.rglob` walk
abstracted as the traversal-ordered list of discovered source files:
extract methods from every non-excluded file, then run the pair
analysis. -/
def analyze_project (files : List SourceFile) : List MethodInfo × List SimPair :=
  let all_methods := (files.filter fun f => !pathExcluded f.path).flatMap
    extract_methods_from_file
  (all_methods, analyze_pairs all_methods)

/-- Basename of a path (`Path(file).name`). -/
def pathBasename (s : String) : String :=
  (s.splitOn "/").getLastD s

/-- Node identifier of `generate_mermaid`:
`f"n_{method.file.replace('/', '_').replace('.', '_')}__{method.name}"`. -/
def node_id (m : MethodInfo) : String :=
  "n_" ++ ((m.file.replace "/" "_").replace "." "_") ++ "__" ++ m.name

/-- Node label of `generate_mermaid` (the Python f-string writes a
literal backslash-n): `f"{method.name}\\n({Path(method.file).name}:{method.start_line})"`. -/
def node_label (m : MethodInfo) : String :=
  m.name ++ "\\n(" ++ pathBasename m.file ++ ":" ++ toString m.start_line ++ ")"

/-- Suspicion test of `generate_mermaid`: some pair whose first or
second member has the method's bare name scores at least `THRESHOLD`. -/
def is_suspicious (similar_pairs : List SimPair) (m : MethodInfo) : Bool :=
  similar_pairs.any fun p =>
    ((p.1.name == m.name) || (p.2.1.name == m.name)) && decide (THRESHOLD ≤ p.2.2)

/-- Node line of `generate_mermaid`, green unless the method is
suspicious, then gold with a thick stroke. -/
def mermaid_node_line (similar_pairs : List SimPair) (m : MethodInfo) : String :=
  "    " ++ node_id m ++ "[[\"" ++ node_label m ++ "\"]]:::" ++
    (if is_suspicious similar_pairs m then
      "fill:#FFD700 stroke:#333,stroke-width:3px"
     else
      "fill:#90EE90 stroke:#333")

/-- Round a nonnegative rational to the nearest integer, ties to even:
the rounding of Python's fixed-point float formatting. -/
def roundHalfEven (q : ℚ) : ℤ :=
  let f : ℤ := Rat.floor q
  let r : ℚ := q - (f : ℚ)
  if r < 1 / 2 then f
  else if 1 / 2 < r then f + 1
  else if 2 ∣ f then f else f + 1

/-- Two-decimal score label `f"{sim:.2f}"` for a nonnegative score. -/
def formatScore (q : ℚ) : String :=
  let c : ℤ := roundHalfEven (q * 100)
  let ip : ℤ := c / 100
  let fp : Nat := (c % 100).toNat
  toString ip ++ "." ++ (if fp < 10 then "0" else "") ++ toString fp

/-- Edge line of `generate_mermaid`:
`f'    {id1} -- "{label}" ---> {id2}'` with the two-decimal score label. -/
def mermaid_edge_line (p : SimPair) : String :=
  "    " ++ node_id p.1 ++ " -- \"" ++ formatScore p.2.2 ++ "\" ---> " ++ node_id p.2.1

/-- Edge loop of `generate_mermaid`: pairs below `THRESHOLD` are
skipped (`continue`), the rest produce one edge line each, in pair-list
order. -/
def mermaid_edge_lines (similar_pairs : List SimPair) : List String :=
  similar_pairs.filterMap fun p =>
    if p.2.2 < THRESHOLD then none else some (mermaid_edge_line p)

/-- Function `generate_mermaid`: header, one node line per method, the
edge lines, then the footer, joined with newlines. -/
def generate_mermaid (all_methods : List MethodInfo) (similar_pairs : List SimPair) : String :=
  String.intercalate "\n"
    (["flowchart TD", "    subgraph \" \""] ++
      all_methods.map (mermaid_node_line similar_pairs) ++
      mermaid_edge_lines similar_pairs ++
      ["    end",
       "    classDef fill:#90EE90 stroke:#333",
       "    classDef fill:#FFD700 stroke:#333,stroke-width:3px"])

/-! ### Sample data used by witnesses and counterexamples -/

/-- Whole-file token stream of the one-function file
`def f(x):\n    return x + 1`, as `tokenize` delivers it. -/
def sampleTokens : List TokenInfo :=
  [⟨.ENCODING, "utf-8"⟩, ⟨.NAME, "def"⟩, ⟨.NAME, "f"⟩, ⟨.OP, "("⟩, ⟨.NAME, "x"⟩,
   ⟨.OP, ")"⟩, ⟨.OP, ":"⟩, ⟨.NEWLINE, "\n"⟩, ⟨.INDENT, "    "⟩, ⟨.NAME, "return"⟩,
   ⟨.NAME, "x"⟩, ⟨.OP, "+"⟩, ⟨.NUMBER, "1"⟩, ⟨.NEWLINE, "\n"⟩, ⟨.DEDENT, ""⟩,
   ⟨.ENDMARKER, ""⟩]

/-- Sample method carrying `sampleTokens` (16 raw tokens). -/
def sampleA : MethodInfo := ⟨"f", "pkg/a.py", 1, 2, "def f(x):\n    return x + 1", sampleTokens⟩

/-- Second sample method carrying the same token stream. -/
def sampleB : MethodInfo := ⟨"g", "pkg/b.py", 3, 4, "def g(y):\n    return y + 1", sampleTokens⟩

/-- Variant of `sampleA` differing only in metadata, not tokens. -/
def sampleA2 : MethodInfo := ⟨"f2", "pkg/c.py", 1, 2, "", sampleTokens⟩

/-- Variant of `sampleB` differing only in metadata, not tokens. -/
def sampleB2 : MethodInfo := ⟨"g2", "pkg/d.py", 3, 4, "", sampleTokens⟩

/-- Method of 14 identical operator tokens: below `MIN_TOKENS`, with a
nonempty canonical set. -/
def cexSmallA : MethodInfo := ⟨"s1", "a.py", 1, 2, "", List.replicate 14 ⟨.OP, "+"⟩⟩

/-- Same 14-operator token stream under another name and location. -/
def cexSmallB : MethodInfo := ⟨"s2", "a.py", 4, 5, "", List.replicate 14 ⟨.OP, "+"⟩⟩

/-- Method of 15 blank-line tokens: at `MIN_TOKENS`, but every token is
dropped by normalization, so its canonical set is empty. -/
def cexBlank : MethodInfo := ⟨"h", "b.py", 1, 1, "", List.replicate 15 ⟨.NL, "\n"⟩⟩

/-- Method of 14 blank-line tokens: below `MIN_TOKENS` and with an empty
canonical set at once. -/
def cexBlankSmall : MethodInfo := ⟨"h2", "b.py", 1, 1, "", List.replicate 14 ⟨.NL, "\n"⟩⟩

/-! ### Helper lemmas -/

/-- Unfolding characterization of `token_similarity`. -/
lemma token_similarity_def (m1 m2 : MethodInfo) :
    token_similarity m1 m2 =
      if m1.tokens.length < MIN_TOKENS ∨ m2.tokens.length < MIN_TOKENS then 0
      else if 0 < ((normalize_tokens m1.tokens).toFinset ∪ (normalize_tokens m2.tokens).toFinset).card then
        ((((normalize_tokens m1.tokens).toFinset ∩ (normalize_tokens m2.tokens).toFinset).card : ℚ)) /
          ((((normalize_tokens m1.tokens).toFinset ∪ (normalize_tokens m2.tokens).toFinset).card : ℚ))
      else 0 :=
  rfl

/-- Similarity scores are nonnegative. -/
lemma token_similarity_nonneg (m1 m2 : MethodInfo) : 0 ≤ token_similarity m1 m2 := by
  rw [token_similarity_def]
  split_ifs with h1 h2
  · exact le_refl 0
  · exact div_nonneg (Nat.cast_nonneg _) (Nat.cast_nonneg _)
  · exact le_refl 0

/-- Similarity scores are at most one. -/
lemma token_similarity_le_one (m1 m2 : MethodInfo) : token_similarity m1 m2 ≤ 1 := by
  rw [token_similarity_def]
  split_ifs with h1 h2
  · exact zero_le_one
  · apply div_le_one_of_le₀
    · exact_mod_cast Finset.card_le_card Finset.inter_subset_union
    · exact Nat.cast_nonneg _
  · exact zero_le_one

/-- The short-circuit: a raw token count below `MIN_TOKENS` forces 0. -/
lemma token_similarity_short (m1 m2 : MethodInfo)
    (h : m1.tokens.length < MIN_TOKENS ∨ m2.tokens.length < MIN_TOKENS) :
    token_similarity m1 m2 = 0 := by
  rw [token_similarity_def, if_pos h]

/-- An empty canonical union yields the defined score 0. -/
lemma token_similarity_empty_union (m1 m2 : MethodInfo)
    (h : (normalize_tokens m1.tokens).toFinset ∪ (normalize_tokens m2.tokens).toFinset = ∅) :
    token_similarity m1 m2 = 0 := by
  rw [token_similarity_def]
  split_ifs with h1 h2
  · rfl
  · exfalso
    rw [h] at h2
    simp at h2
  · rfl

/-- Equal nonempty canonical sets of two large-enough streams score 1. -/
lemma token_similarity_eq_one (m1 m2 : MethodInfo)
    (h1 : MIN_TOKENS ≤ m1.tokens.length) (h2 : MIN_TOKENS ≤ m2.tokens.length)
    (hset : (normalize_tokens m1.tokens).toFinset = (normalize_tokens m2.tokens).toFinset)
    (hne : (normalize_tokens m1.tokens).toFinset.Nonempty) :
    token_similarity m1 m2 = 1 := by
  rw [token_similarity_def, if_neg (by rw [not_or]; exact ⟨Nat.not_lt.mpr h1, Nat.not_lt.mpr h2⟩),
    ← hset, Finset.inter_self, Finset.union_self,
    if_pos (Finset.card_pos.mpr hne)]
  exact div_self (ne_of_gt (by exact_mod_cast Finset.card_pos.mpr hne))

/-- The score reads nothing of a `MethodInfo` but its token stream. -/
lemma token_similarity_tokens_congr (m1 m2 m1' m2' : MethodInfo)
    (e1 : m1'.tokens = m1.tokens) (e2 : m2'.tokens = m2.tokens) :
    token_similarity m1' m2' = token_similarity m1 m2 := by
  rw [token_similarity_def, token_similarity_def, e1, e2]

/-- The score is symmetric in its two arguments. -/
lemma token_similarity_symm_aux (m1 m2 : MethodInfo) :
    token_similarity m1 m2 = token_similarity m2 m1 := by
  rw [token_similarity_def, token_similarity_def,
    Finset.inter_comm ((normalize_tokens m1.tokens).toFinset) ((normalize_tokens m2.tokens).toFinset),
    Finset.union_comm ((normalize_tokens m1.tokens).toFinset) ((normalize_tokens m2.tokens).toFinset)]
  by_cases h : m1.tokens.length < MIN_TOKENS ∨ m2.tokens.length < MIN_TOKENS
  · rw [if_pos h, if_pos (Or.symm h)]
  · rw [if_neg h, if_neg (fun hc => h (Or.symm hc))]

/-! ### Claim theorems -/

/-- C6: the similarity score always lies in `[0, 1]`; it is exactly 0
whenever either record's raw token count is below `MIN_TOKENS` (15); and
an empty canonical union yields the defined score 0 rather than an
error. -/
theorem token_similarity_bounds (m1 m2 : MethodInfo) :
    (0 ≤ token_similarity m1 m2 ∧ token_similarity m1 m2 ≤ 1) ∧
    (m1.tokens.length < MIN_TOKENS ∨ m2.tokens.length < MIN_TOKENS →
      token_similarity m1 m2 = 0) ∧
    ((normalize_tokens m1.tokens).toFinset ∪ (normalize_tokens m2.tokens).toFinset = ∅ →
      token_similarity m1 m2 = 0) :=
  ⟨⟨token_similarity_nonneg m1 m2, token_similarity_le_one m1 m2⟩,
   token_similarity_short m1 m2, token_similarity_empty_union m1 m2⟩

/-- C6 witness: `cexBlankSmall` is both below `MIN_TOKENS` and of empty
canonical union, so both implications of `token_similarity_bounds`
discharge at it concretely. -/
theorem token_similarity_bounds_witness :
    (0 ≤ token_similarity cexBlankSmall cexBlankSmall ∧
      token_similarity cexBlankSmall cexBlankSmall ≤ 1) ∧
    token_similarity cexBlankSmall cexBlankSmall = 0 ∧
    token_similarity cexBlankSmall cexBlankSmall = 0 :=
  ⟨(token_similarity_bounds cexBlankSmall cexBlankSmall).1,
   (token_similarity_bounds cexBlankSmall cexBlankSmall).2.1 (Or.inl (by decide)),
   (token_similarity_bounds cexBlankSmall cexBlankSmall).2.2 (by decide)⟩

/-- C7: the similarity score is symmetric, and it depends only on the
two records' token streams. -/
theorem token_similarity_symm (m1 m2 : MethodInfo) :
    token_similarity m1 m2 = token_similarity m2 m1 ∧
    ∀ m1' m2' : MethodInfo, m1'.tokens = m1.tokens → m2'.tokens = m2.tokens →
      token_similarity m1' m2' = token_similarity m1 m2 :=
  ⟨token_similarity_symm_aux m1 m2,
   fun _ _ e1 e2 => token_similarity_tokens_congr m1 m2 _ _ e1 e2⟩

/-- C7 witness: symmetry and token-only dependence at the concrete
records `sampleA`, `sampleB` and their metadata variants. -/
theorem token_similarity_symm_witness :
    token_similarity sampleA sampleB = token_similarity sampleB sampleA ∧
    token_similarity sampleA2 sampleB2 = token_similarity sampleA sampleB :=
  ⟨(token_similarity_symm sampleA sampleB).1,
   (token_similarity_symm sampleA sampleB).2 sampleA2 sampleB2 (by decide) (by decide)⟩

/-- C4 counterexample: `cexBlank` has exactly 15 raw tokens — at the
minimum-tokens threshold — yet its self-similarity is 0, not 1, because
all its tokens are structural and the canonical union is empty. -/
theorem token_similarity_self_cex :
    MIN_TOKENS ≤ cexBlank.tokens.length ∧ token_similarity cexBlank cexBlank ≠ 1 := by
  decide

/-- C4 (amended): self-similarity is 1.0 for every record whose raw
token count is at or above `MIN_TOKENS` (15) and whose canonical token
set is nonempty. -/
theorem token_similarity_self_amended (A : MethodInfo)
    (hlen : MIN_TOKENS ≤ A.tokens.length)
    (hne : (normalize_tokens A.tokens).toFinset.Nonempty) :
    token_similarity A A = 1 :=
  token_similarity_eq_one A A hlen hlen rfl hne

/-- C4 witness: self-similarity 1 at the concrete record `sampleA`. -/
theorem token_similarity_self_amended_witness :
    token_similarity sampleA sampleA = 1 :=
  token_similarity_self_amended sampleA (by decide) (by decide)

/-- C3 counterexample: `cexSmallA` and `cexSmallB` normalize to the same
(nonempty) canonical set, yet score 0 rather than 1, because their raw
token counts (14) are below the minimum-tokens threshold. -/
theorem token_similarity_identical_sets_cex :
    (normalize_tokens cexSmallA.tokens).toFinset = (normalize_tokens cexSmallB.tokens).toFinset ∧
    token_similarity cexSmallA cexSmallB ≠ 1 := by
  decide

/-- C3 (amended): two records whose raw token counts are both at or
above `MIN_TOKENS` and whose token streams normalize to identical
nonempty canonical sets score 1.0. -/
theorem token_similarity_identical_sets_amended (m1 m2 : MethodInfo)
    (h1 : MIN_TOKENS ≤ m1.tokens.length) (h2 : MIN_TOKENS ≤ m2.tokens.length)
    (hne : (normalize_tokens m1.tokens).toFinset.Nonempty)
    (hset : (normalize_tokens m1.tokens).toFinset = (normalize_tokens m2.tokens).toFinset) :
    token_similarity m1 m2 = 1 :=
  token_similarity_eq_one m1 m2 h1 h2 hset hne

/-- C3 witness: score 1 at the concrete identically-tokenized records
`sampleA` and `sampleB`. -/
theorem token_similarity_identical_sets_amended_witness :
    token_similarity sampleA sampleB = 1 :=
  token_similarity_identical_sets_amended sampleA sampleB
    (by decide) (by decide) (by decide) (by decide)

/-- Source file with three definitions at line ranges 1-2, 3-4 and 5-6:
a public `f`, a private `_h`, and `__init__`, carrying `sampleTokens`
as its whole-file stream. -/
def sampleFile : SourceFile :=
  ⟨"pkg/a.py",
   ["def f(x):", "    return x + 1", "def _h(x):", "    return x",
    "def __init__(self):", "    pass"],
   sampleTokens,
   [⟨"f", 1, 2⟩, ⟨"_h", 3, 4⟩, ⟨"__init__", 5, 6⟩]⟩

/-- Record the Extractor produces for `f` of `sampleFile`. -/
def sampleExtracted : MethodInfo := mkMethodInfo sampleFile ⟨"f", 1, 2⟩

/-- Record the Extractor produces for `__init__` of `sampleFile`. -/
def sampleInit : MethodInfo := mkMethodInfo sampleFile ⟨"__init__", 5, 6⟩

/-- Membership characterization of the Extractor's output. -/
lemma mem_extract_iff (f : SourceFile) (m : MethodInfo) :
    m ∈ extract_methods_from_file f ↔
      ∃ node ∈ f.defs,
        ¬(startswith node.name "_" ∧ node.name ≠ "__init__") ∧ m = mkMethodInfo f node := by
  unfold extract_methods_from_file
  rw [List.mem_filterMap]
  constructor
  · rintro ⟨node, hmem, heq⟩
    by_cases h : startswith node.name "_" ∧ node.name ≠ "__init__"
    · rw [if_pos h] at heq
      cases heq
    · rw [if_neg h] at heq
      exact ⟨node, hmem, h, (Option.some.inj heq).symm⟩
  · rintro ⟨node, hmem, hcond, rfl⟩
    exact ⟨node, hmem, by rw [if_neg hcond]⟩

/-- Skip-condition versus keep-condition bookkeeping for the filter
shape of the Extractor. -/
lemma extract_eq_filter_map (l : List DefNode) (g : DefNode → MethodInfo) :
    (l.filterMap fun node =>
        if startswith node.name "_" ∧ node.name ≠ "__init__" then none else some (g node)) =
      (l.filter fun node => !startswith node.name "_" || node.name == "__init__").map g := by
  induction l with
  | nil => rfl
  | cons x xs ih =>
    by_cases h : startswith x.name "_" ∧ x.name ≠ "__init__"
    · have hb : (!startswith x.name "_" || x.name == "__init__") = false := by
        simp [h.1, h.2]
      simp [List.filterMap_cons, List.filter_cons, h, hb, ih]
    · have hb : (!startswith x.name "_" || x.name == "__init__") = true := by
        rcases not_and_or.mp h with h1 | h2
        · simp [h1]
        · simp [not_not.mp h2]
      simp [List.filterMap_cons, List.filter_cons, h, hb, ih]

/-- C1: every record the Extractor produces from a file carries the
file's whole token stream unsliced (shared by all of the file's
records), while its `code` field is the slice of the file's lines from
`start_line` to `end_line` inclusive. -/
theorem extract_shares_whole_file_tokens (f : SourceFile) (m : MethodInfo)
    (hm : m ∈ extract_methods_from_file f) :
    m.tokens = f.tokens ∧
    m.code = sourceSlice f.lines m.start_line m.end_line := by
  rcases (mem_extract_iff f m).mp hm with ⟨node, _, _, rfl⟩
  exact ⟨rfl, rfl⟩

/-- C1 witness: the record for `f` of `sampleFile` carries the whole
file's tokens and the slice of lines 1-2. -/
theorem extract_shares_whole_file_tokens_witness :
    sampleExtracted.tokens = sampleFile.tokens ∧
    sampleExtracted.code =
      sourceSlice sampleFile.lines sampleExtracted.start_line sampleExtracted.end_line :=
  extract_shares_whole_file_tokens sampleFile sampleExtracted (by decide)

/-- C8: the Extractor yields exactly one record, in walk order, per
definition node whose name does not start with an underscore or is
`__init__`; every other underscore-prefixed definition is skipped. -/
theorem extract_filter_rule (f : SourceFile) :
    extract_methods_from_file f =
      (f.defs.filter fun node => !startswith node.name "_" || node.name == "__init__").map
        (mkMethodInfo f) :=
  extract_eq_filter_map f.defs (mkMethodInfo f)

/-- C10: any two records extracted from the same file score exactly 1
whenever the file's whole token stream reaches `MIN_TOKENS` and has a
nonempty canonical set, because both records carry that same whole-file
stream; the score never reflects the two methods' own bodies. -/
theorem same_file_methods_score_one (f : SourceFile) (m1 m2 : MethodInfo)
    (hm1 : m1 ∈ extract_methods_from_file f) (hm2 : m2 ∈ extract_methods_from_file f)
    (hlen : MIN_TOKENS ≤ f.tokens.length)
    (hne : (normalize_tokens f.tokens).toFinset.Nonempty) :
    token_similarity m1 m2 = 1 := by
  rcases (mem_extract_iff f m1).mp hm1 with ⟨n1, _, _, rfl⟩
  rcases (mem_extract_iff f m2).mp hm2 with ⟨n2, _, _, rfl⟩
  exact token_similarity_eq_one _ _ hlen hlen rfl hne

/-- C10 witness: the records for `f` and `__init__` of `sampleFile` —
entirely different definitions — score exactly 1. -/
theorem same_file_methods_score_one_witness :
    token_similarity sampleExtracted sampleInit = 1 :=
  same_file_methods_score_one sampleFile sampleExtracted sampleInit
    (by decide) (by decide) (by decide) (by decide)

/-- Edge loop as a filter-then-map: the skip-on-`continue` shape of the
edge loop keeps exactly the pairs at or above `THRESHOLD`. -/
lemma edge_lines_eq (l : List SimPair) :
    mermaid_edge_lines l =
      (l.filter fun p => decide (THRESHOLD ≤ p.2.2)).map mermaid_edge_line := by
  induction l with
  | nil => rfl
  | cons x xs ih =>
    by_cases h : x.2.2 < THRESHOLD
    · have hd : decide (THRESHOLD ≤ x.2.2) = false := by
        simp [not_le.mpr h]
      simp [mermaid_edge_lines, List.filterMap_cons, List.filter_cons, if_pos h, hd,
        ih, mermaid_edge_lines] at ih ⊢
      exact ih
    · have hd : decide (THRESHOLD ≤ x.2.2) = true := by
        simp [not_lt.mp h]
      simp [mermaid_edge_lines, List.filterMap_cons, List.filter_cons, if_neg h, hd,
        ih, mermaid_edge_lines] at ih ⊢
      exact ih

/-- C5: the pair analysis scores every unordered pair of distinct
methods of the inventory, retains exactly those pairs whose score
reaches the noise floor `3/10`, and returns the retained pairs sorted
descending by score. -/
theorem analyze_pairs_spec (ms : List MethodInfo) :
    (analyze_pairs ms).Perm
      ((combinations2 ms).filterMap fun p =>
        if 3 / 10 ≤ token_similarity p.1 p.2 then
          some (p.1, p.2, token_similarity p.1 p.2)
        else none) ∧
    (analyze_pairs ms).Sorted (fun a b => b.2.2 ≤ a.2.2) ∧
    ∀ q : SimPair, q ∈ analyze_pairs ms ↔
      ((q.1, q.2.1) ∈ combinations2 ms ∧ q.2.2 = token_similarity q.1 q.2.1 ∧
        3 / 10 ≤ q.2.2) := by
  refine ⟨List.mergeSort_perm _ _, ?_, ?_⟩
  · have h := @List.sorted_mergeSort SimPair (fun a b => decide (b.2.2 ≤ a.2.2))
      (fun a b c hab hbc => by
        simp only [decide_eq_true_eq] at *
        exact le_trans hbc hab)
      (fun a b => by
        simp [Bool.or_eq_true, decide_eq_true_eq]
        exact le_total b.2.2 a.2.2)
      ((combinations2 ms).filterMap fun p =>
        if 3 / 10 ≤ token_similarity p.1 p.2 then
          some (p.1, p.2, token_similarity p.1 p.2)
        else none)
    exact h.imp fun hab => of_decide_eq_true hab
  · intro q
    have hmem : q ∈ analyze_pairs ms ↔
        q ∈ (combinations2 ms).filterMap fun p =>
          if 3 / 10 ≤ token_similarity p.1 p.2 then
            some (p.1, p.2, token_similarity p.1 p.2)
          else none :=
      List.mem_mergeSort
    rw [hmem, List.mem_filterMap]
    constructor
    · rintro ⟨p, hp, hsome⟩
      by_cases hc : 3 / 10 ≤ token_similarity p.1 p.2
      · rw [if_pos hc] at hsome
        rcases Option.some.inj hsome with rfl
        exact ⟨hp, rfl, hc⟩
      · rw [if_neg hc] at hsome
        cases hsome
    · rintro ⟨hmem2, heq, hge⟩
      refine ⟨(q.1, q.2.1), hmem2, ?_⟩
      rw [if_pos (heq ▸ hge), ← heq]

/-- Scored pair of the two identically-tokenized sample methods. -/
def samplePair : SimPair := (sampleA, sampleB, 1)

/-- C5 witness: on the two-method inventory `[sampleA, sampleB]`, the
pair `(sampleA, sampleB, 1)` is retained, by the membership
characterization of `analyze_pairs_spec` at concrete inputs. -/
theorem analyze_pairs_spec_witness :
    samplePair ∈ analyze_pairs [sampleA, sampleB] :=
  ((analyze_pairs_spec [sampleA, sampleB]).2.2 samplePair).mpr
    ⟨by decide,
     (token_similarity_eq_one sampleA sampleB (by decide) (by decide) rfl (by decide)).symm,
     by norm_num [samplePair]⟩

/-- C2: a method's node is styled suspicious iff the method's bare name
equals the name of either member of at least one retained pair scoring
at least `THRESHOLD` (0.75); one edge line is emitted per retained pair
scoring at least `THRESHOLD`, labeled with the two-decimal score; and
when no retained pair reaches `THRESHOLD`, no edge line is emitted at
all, however many pairs at or above the `3/10` floor exist. -/
theorem generate_mermaid_threshold_spec (pairs : List SimPair) :
    (∀ m : MethodInfo, is_suspicious pairs m = true ↔
      ∃ p ∈ pairs, THRESHOLD ≤ p.2.2 ∧ (p.1.name = m.name ∨ p.2.1.name = m.name)) ∧
    (mermaid_edge_lines pairs =
      (pairs.filter fun p => decide (THRESHOLD ≤ p.2.2)).map mermaid_edge_line) ∧
    (∀ p : SimPair, mermaid_edge_line p =
      "    " ++ node_id p.1 ++ " -- \"" ++ formatScore p.2.2 ++ "\" ---> " ++ node_id p.2.1) ∧
    ((∀ p ∈ pairs, p.2.2 < THRESHOLD) → mermaid_edge_lines pairs = []) := by
  refine ⟨?_, edge_lines_eq pairs, fun p => rfl, ?_⟩
  · intro m
    unfold is_suspicious
    rw [List.any_eq_true]
    constructor
    · rintro ⟨p, hp, hcond⟩
      rw [Bool.and_eq_true, Bool.or_eq_true, beq_iff_eq, beq_iff_eq, decide_eq_true_eq]
        at hcond
      exact ⟨p, hp, hcond.2, hcond.1⟩
    · rintro ⟨p, hp, hthr, hname⟩
      refine ⟨p, hp, ?_⟩
      rw [Bool.and_eq_true, Bool.or_eq_true, beq_iff_eq, beq_iff_eq, decide_eq_true_eq]
      exact ⟨hname, hthr⟩
  · intro hall
    rw [edge_lines_eq]
    have hnil : (pairs.filter fun p => decide (THRESHOLD ≤ p.2.2)) = [] := by
      rw [List.filter_eq_nil_iff]
      intro p hp
      simp only [decide_eq_true_eq]
      exact not_le.mpr (hall p hp)
    rw [hnil]
    rfl

/-- Retained pair scoring 1/2: above the noise floor, below the review
threshold. -/
def lowPair : SimPair := (sampleA, sampleB, 1 / 2)

/-- C2 witness: with the single retained pair `lowPair` at score 1/2 —
above the 3/10 floor but below 0.75 — no edge line is emitted. -/
theorem generate_mermaid_threshold_spec_witness :
    mermaid_edge_lines [lowPair] = [] :=
  (generate_mermaid_threshold_spec [lowPair]).2.2.2 (by
    intro p hp
    rw [List.mem_singleton] at hp
    subst hp
    norm_num [lowPair, THRESHOLD])

/-- C9: an empty file list yields an empty inventory and an empty pair
list, and the renderer on an empty inventory and pair list yields a
diagram of the fixed header and footer only — no method node lines and
no edge lines — raising no error. -/
theorem empty_project_empty_report :
    analyze_project [] = ([], []) ∧
    analyze_pairs [] = [] ∧
    generate_mermaid [] [] =
      "flowchart TD\n    subgraph \" \"\n    end\n    classDef fill:#90EE90 stroke:#333\n    classDef fill:#FFD700 stroke:#333,stroke-width:3px" := by
  refine ⟨?_, ?_, rfl⟩
  · simp [analyze_project, analyze_pairs, combinations2, List.mergeSort_nil]
  · simp [analyze_pairs, combinations2, List.mergeSort_nil]
